import Mathlib

/-
Verification of the moehlenhoff-alpha2 client library (module
moehlenhoff_alpha2/__init__.py, version 1.1.2) against its natural-language
specification.

The Python module is shallowly embedded:
  * Python values flowing through the XML layer are modelled by `PyVal`
    (strings, ints, bools, floats, None).  Python floats are modelled as
    exact decimal rationals (`Rat`); every literal the appliance protocol
    carries is a short decimal, for which the nearest IEEE double rounds
    back to the same decimal at the one-digit precision used by the code,
    so the decimal-rational model is faithful on the protocol's value
    range.  Exponent forms, inf/nan and underscore digit grouping are
    outside the model.
  * Python dicts are association lists in insertion order (`PyDict`);
    updating an existing key keeps its position, new keys are appended,
    exactly as CPython dicts behave.
  * Exceptions are `Except PyErr`; each `PyErr` constructor records the
    Python exception type raised at the corresponding source line
    (ValueError, TypeError, KeyError, RuntimeError, TimeoutError,
    aiohttp.ClientError, UnicodeDecodeError).
  * The parsed snapshot subtree static_data["Devices"]["Device"] is the
    structure `Device`; the three collections are already list-normalised
    as `_get_static_data` (lines 163-170) guarantees.
-/

deriving instance DecidableEq for Except

namespace Alpha2

/-- Python exception kinds raised by the module; constructors are tagged by
the raising site. `valueError` covers int()/float() parse failures and the
2-variable unpacking of str.split, `unknownEntityKind` is the ValueError of
lines 90/105, `notInitialized` the RuntimeError of line 148, `commandTimeout`
the TimeoutError of line 267, `clientError` aiohttp.ClientError and
`unicodeError` UnicodeDecodeError (both caught at lines 136/159). -/
inductive PyErr
  | valueError
  | unknownEntityKind
  | typeError
  | keyError
  | notInitialized
  | commandTimeout
  | clientError
  | unicodeError
deriving DecidableEq, Repr

/-- Model of the Python values the module moves between the XML tree and
callers: str, int, bool, float (as an exact decimal rational), None. -/
inductive PyVal
  | str (s : String)
  | int (n : Int)
  | bool (b : Bool)
  | float (q : Rat)
  | none
deriving DecidableEq, Repr

/-- A Python dict in insertion order. -/
abbrev PyDict := List (String × PyVal)

/-- Python truthiness of a `PyVal` (non-empty string, non-zero number). -/
def pyTruthy : PyVal → Bool
  | .str s => s ≠ ""
  | .int n => n ≠ 0
  | .bool b => b
  | .float q => q ≠ 0
  | .none => false

/-- Python `v == "0"` for a `PyVal` v: only a str compares equal to a str. -/
def pyEqStrZero : PyVal → Bool
  | .str s => s = "0"
  | _ => false

/-- Strip leading and trailing whitespace, as Python int()/float() do. -/
def stripChars (cs : List Char) : List Char :=
  ((cs.dropWhile Char.isWhitespace).reverse.dropWhile Char.isWhitespace).reverse

/-- Numeric value of a digit character. -/
def digitVal (c : Char) : Nat := c.toNat - '0'.toNat

/-- Value of a list of decimal digit characters. -/
def digitsToNat (cs : List Char) : Nat :=
  cs.foldl (fun a c => a * 10 + digitVal c) 0

/-- Python `int(s)` on a str: optional surrounding whitespace, optional
sign, then decimal digits; anything else raises ValueError.  (Underscore
grouping and non-ASCII digits are outside the model.) -/
def pyIntOfString (s : String) : Except PyErr Int :=
  let cs := stripChars s.data
  let sc : Bool × List Char :=
    match cs with
    | '-' :: rest => (true, rest)
    | '+' :: rest => (false, rest)
    | _ => (false, cs)
  if !sc.2.isEmpty && sc.2.all Char.isDigit then
    .ok (if sc.1 then -(digitsToNat sc.2 : Int) else (digitsToNat sc.2 : Int))
  else
    .error .valueError

/-- Python `float(s)` on a str, in the decimal-rational float model:
optional whitespace and sign, digits with an optional fractional part.
(Exponent forms, inf and nan are outside the model.) -/
def pyFloatOfString (s : String) : Except PyErr Rat :=
  let cs := stripChars s.data
  let sc : Bool × List Char :=
    match cs with
    | '-' :: rest => (true, rest)
    | '+' :: rest => (false, rest)
    | _ => (false, cs)
  let ip := sc.2.takeWhile Char.isDigit
  let rest1 := sc.2.dropWhile Char.isDigit
  let sgn : Rat := if sc.1 then -1 else 1
  match rest1 with
  | [] =>
    if ip.isEmpty then .error .valueError
    else .ok (sgn * (digitsToNat ip : Rat))
  | '.' :: rest2 =>
    let fp := rest2.takeWhile Char.isDigit
    let rest3 := rest2.dropWhile Char.isDigit
    if rest3.isEmpty && !(ip.isEmpty && fp.isEmpty) then
      .ok (sgn * ((digitsToNat ip : Rat) + (digitsToNat fp : Rat) / ((10 : Rat) ^ fp.length)))
    else .error .valueError
  | _ => .error .valueError

/-- Python `int(v)`: parse a str, identity on int, 0/1 on bool, truncation
toward zero on float, TypeError on None. -/
def pyIntVal : PyVal → Except PyErr Int
  | .str s => pyIntOfString s
  | .int n => .ok n
  | .bool b => .ok (if b then 1 else 0)
  | .float q => .ok (q.num / (q.den : Int))
  | .none => .error .typeError

/-- Python `float(v)` in the decimal-rational model. -/
def pyFloatVal : PyVal → Except PyErr Rat
  | .str s => pyFloatOfString s
  | .int n => .ok (n : Rat)
  | .bool b => .ok (if b then 1 else 0)
  | .float q => .ok q
  | .none => .error .typeError

/-- Floor of a rational as an integer (Int.fdiv floors the quotient). -/
def qfloor (x : Rat) : Int := Int.fdiv x.num (x.den : Int)

/-- Round a rational to the nearest integer, ties to even — the rounding
CPython's fixed-point float formatting performs. -/
def roundHalfEven (x : Rat) : Int :=
  let f := qfloor x
  let r := x - (f : Rat)
  if r < 1 / 2 then f
  else if 1 / 2 < r then f + 1
  else if f % 2 = 0 then f else f + 1

/-- Left-pad a string with zeros to length k. -/
def padLeftZeros (s : String) (k : Nat) : String :=
  String.mk (List.replicate (k - s.length) '0') ++ s

/-- Python `f"{x:0.1f}"` in the decimal-rational float model: the value
rounded half-to-even at one fractional digit, rendered with exactly one
fractional digit.  (The sign of a negative zero is outside the model.) -/
def format01f (q : Rat) : String :=
  let m := roundHalfEven (q * 10)
  let s := if m < 0 then "-" else ""
  let a := m.natAbs
  s ++ toString (a / 10) ++ "." ++ toString (a % 10)

/-- Python `str(float)` (repr) in the decimal-rational model: the shortest
fixed-point decimal rendering, at least one fractional digit, no exponent
form.  No theorem below depends on values of this rendering. -/
def floatRepr (q : Rat) : String :=
  let k := ((List.range 31).find? fun j => (q * (10 : Rat) ^ j).den = 1).getD 31
  let m := roundHalfEven (q * (10 : Rat) ^ k)
  let s := if m < 0 then "-" else ""
  let a := m.natAbs
  if k = 0 then s ++ toString a ++ ".0"
  else s ++ toString (a / 10 ^ k) ++ "." ++ padLeftZeros (toString (a % 10 ^ k)) k

/-- Python `str(v)`. -/
def pyStr : PyVal → String
  | .str s => s
  | .int n => toString n
  | .bool b => if b then "True" else "False"
  | .float q => floatRepr q
  | .none => "None"

/-- The semantic type an attribute is declared with in `_TYPES`. -/
inductive PyType
  | bool
  | int
  | float
  | str
deriving DecidableEq, Repr

/-- The `_TYPES` class attribute (lines 23-75): per entity kind, the
declared semantic type of each attribute, in source order. -/
def TYPES : String → Option (List (String × PyType))
  | "IODEVICE" => some
      [("IODEVICE_TYPE", .int), ("IODEVICE_ID", .int),
       ("IODEVICE_VERS_HW", .str), ("IODEVICE_VERS_SW", .str),
       ("HEATAREA_NR", .int), ("SIGNALSTRENGTH", .int), ("BATTERY", .int),
       ("IODEVICE_STATE", .int), ("IODEVICE_COMERROR", .int), ("ISON", .bool)]
  | "HEATCTRL" => some
      [("INUSE", .bool), ("HEATAREA_NR", .int), ("ACTOR", .int),
       ("ACTOR_PERCENT", .int), ("HEATCTRL_STATE", .int)]
  | "HEATAREA" => some
      [("BLOCK_HC", .bool), ("HEATAREA_NAME", .str), ("HEATAREA_MODE", .int),
       ("HEATAREA_STATE", .int), ("HEATINGSYSTEM", .int), ("ISLOCKED", .bool),
       ("LIGHT", .int), ("LOCK_AVAILABLE", .bool), ("LOCK_CODE", .str),
       ("OFFSET", .float), ("PARTY", .bool), ("PARTY_REMAININGTIME", .int),
       ("PRESENCE", .bool), ("PROGRAM_SOURCE", .int), ("PROGRAM_WEEK", .int),
       ("PROGRAM_WEEKEND", .int), ("RPM_MOTOR", .int), ("SENSOR_EXT", .int),
       ("T_ACTUAL", .float), ("T_ACTUAL_EXT", .float), ("T_COOL_DAY", .float),
       ("T_COOL_NIGHT", .float), ("T_FLOOR_DAY", .float), ("T_HEAT_DAY", .float),
       ("T_HEAT_NIGHT", .float), ("T_TARGET", .float),
       ("T_TARGET_ADJUSTABLE", .bool), ("T_TARGET_BASE", .float),
       ("T_TARGET_MIN", .float), ("T_TARGET_MAX", .float)]
  | _ => Option.none

/-- Declared type of attribute `a` of entity kind `k`, if any. -/
def attrType (k a : String) : Option PyType :=
  (TYPES k).bind fun tbl => tbl.lookup a

/-- `convert_types_from_xml` (lines 85-98).  The Python makes a shallow
copy of `data` (line 91) and reassigns converted attribute values on the
copy in iteration order, so the embedding maps over the entries; the
argument dict is untouched.  A bool attribute becomes `bool(int(v))`, the
other declared types apply the type constructor, unknown attributes pass
through. -/
def convert_types_from_xml (entity_type : String) (data : PyDict) :
    Except PyErr PyDict :=
  match TYPES entity_type with
  | Option.none => .error .unknownEntityKind
  | some tbl =>
    data.mapM fun p =>
      match tbl.lookup p.1 with
      | some .bool => (pyIntVal p.2).map fun n => (p.1, PyVal.bool (n != 0))
      | some .int => (pyIntVal p.2).map fun n => (p.1, PyVal.int n)
      | some .float => (pyFloatVal p.2).map fun q => (p.1, PyVal.float q)
      | some .str => .ok (p.1, PyVal.str (pyStr p.2))
      | Option.none => .ok p

/-- `convert_types_for_xml` (lines 100-118), mapping over a copy as above.
A bool attribute renders as "1" exactly when the value is truthy and not
equal to the string "0"; a float attribute renders with one fractional
digit; everything else is `str(v)`. -/
def convert_types_for_xml (entity_type : String) (data : PyDict) :
    Except PyErr PyDict :=
  match TYPES entity_type with
  | Option.none => .error .unknownEntityKind
  | some tbl =>
    data.mapM fun p =>
      match tbl.lookup p.1 with
      | some .bool =>
        .ok (p.1, PyVal.str (if pyTruthy p.2 && !pyEqStrZero p.2 then "1" else "0"))
      | some .float => (pyFloatVal p.2).map fun q => (p.1, PyVal.str (format01f q))
      | _ => .ok (p.1, PyVal.str (pyStr p.2))

/-- Python `d[k]` on a dict: the value, or KeyError. -/
def dictGetE (d : PyDict) (k : String) : Except PyErr PyVal :=
  match d.lookup k with
  | some v => .ok v
  | Option.none => .error .keyError

/-- Python `d[k] = v`: reassigning an existing key keeps its position,
a new key is appended. -/
def dictSet (d : PyDict) (k : String) (v : PyVal) : PyDict :=
  if d.any fun p => p.1 == k then
    d.map fun p => if p.1 == k then (k, v) else p
  else d ++ [(k, v)]

/-- Python `del d[k]` (used only after `d[k]` has been read, so the key is
present). -/
def dictDel (d : PyDict) (k : String) : PyDict :=
  d.filter fun p => p.1 != k

/-- The parsed snapshot subtree static_data["Devices"]["Device"] after the
list normalisation of `_get_static_data` (lines 163-170): base NAME and ID,
the raw COOLING value, and the three wire-native entity collections. -/
structure Device where
  NAME : String
  ID : String
  COOLING : PyVal
  HEATAREA : List PyDict
  HEATCTRL : List PyDict
  IODEVICE : List PyDict
deriving DecidableEq, Repr

/-- The inner heat-control scan of `heat_areas` (lines 234-241), run over
the RAW wire-form heat-control records: the guard is Python truthiness of
the raw INUSE value (so the non-empty string "0" counts as in use) and
`int(heatctrl["HEATAREA_NR"]) == heat_area["NR"]`; a matching control's
state overwrites the accumulator, and the loop breaks at the first
non-zero state. -/
def heatCtrlScan (nr : Int) (ctrls : List PyDict) (acc : Int) :
    Except PyErr Int :=
  match ctrls with
  | [] => .ok acc
  | c :: rest => do
    let inuse ← dictGetE c "INUSE"
    if pyTruthy inuse then do
      let hnr ← pyIntVal (← dictGetE c "HEATAREA_NR")
      if hnr = nr then do
        let st ← pyIntVal (← dictGetE c "HEATCTRL_STATE")
        if st ≠ 0 then .ok st else heatCtrlScan nr rest st
      else heatCtrlScan nr rest acc
    else heatCtrlScan nr rest acc

/-- The claim's aggregation rule, stated from the spec's words for
comparison with `heatCtrlScan`: scanning in document order, the zone state
is the state of the first IN-USE (boolean INUSE flag true, i.e. integer
value non-zero per the `_TYPES` table) zone-matching control with non-zero
state, and 0 when no in-use control references the zone or all matching
in-use controls are idle. -/
def zoneAggSpec (nr : Int) (ctrls : List PyDict) : Except PyErr Int :=
  match ctrls with
  | [] => .ok 0
  | c :: rest => do
    let iu ← pyIntVal (← dictGetE c "INUSE")
    if iu ≠ 0 then do
      let hnr ← pyIntVal (← dictGetE c "HEATAREA_NR")
      if hnr = nr then do
        let st ← pyIntVal (← dictGetE c "HEATCTRL_STATE")
        if st ≠ 0 then .ok st else zoneAggSpec nr rest
      else zoneAggSpec nr rest
    else zoneAggSpec nr rest

/-- One record of the `io_devices` generator (lines 202-208).  The second
component is the state of the source record after the iteration: the
conversion works on a shallow copy (line 91) and the NR/ID/"@nr" edits of
lines 204-207 target that copy, so the source record is returned
unchanged. -/
def ioDeviceView (dev : Device) (io : PyDict) :
    (Except PyErr PyDict) × PyDict :=
  (do
    let v ← convert_types_from_xml "IODEVICE" io
    let nr ← pyIntVal (← dictGetE v "@nr")
    let v := dictSet v "NR" (PyVal.int nr)
    let v := dictDel v "@nr"
    let v := dictSet v "ID" (PyVal.str (dev.ID ++ ":" ++ toString nr))
    let hanr ← dictGetE v "HEATAREA_NR"
    let v := dictSet v "_HEATAREA_ID"
      (if pyTruthy hanr then PyVal.str (dev.ID ++ ":" ++ pyStr hanr)
       else PyVal.none)
    .ok v, io)

/-- One record of the `heat_controls` generator (lines 215-221); source
record returned unchanged as in `ioDeviceView`. -/
def heatControlView (dev : Device) (hc : PyDict) :
    (Except PyErr PyDict) × PyDict :=
  (do
    let v ← convert_types_from_xml "HEATCTRL" hc
    let nr ← pyIntVal (← dictGetE v "@nr")
    let v := dictSet v "NR" (PyVal.int nr)
    let v := dictDel v "@nr"
    let v := dictSet v "ID" (PyVal.str (dev.ID ++ ":" ++ toString nr))
    let hanr ← dictGetE v "HEATAREA_NR"
    let v := dictSet v "_HEATAREA_ID"
      (if pyTruthy hanr then PyVal.str (dev.ID ++ ":" ++ pyStr hanr)
       else PyVal.none)
    .ok v, hc)

/-- One record of the `heat_areas` generator (lines 228-242); the inner
loop over `device["HEATCTRL"]` only reads, and the writes of lines 229-240
target the shallow copy, so the source record is returned unchanged. -/
def heatAreaView (dev : Device) (ha : PyDict) :
    (Except PyErr PyDict) × PyDict :=
  (do
    let v ← convert_types_from_xml "HEATAREA" ha
    let nr ← pyIntVal (← dictGetE v "@nr")
    let v := dictSet v "NR" (PyVal.int nr)
    let v := dictDel v "@nr"
    let v := dictSet v "ID" (PyVal.str (dev.ID ++ ":" ++ toString nr))
    let v := dictSet v "_HEATCTRL_STATE" (PyVal.int 0)
    let st ← heatCtrlScan nr dev.HEATCTRL 0
    let v := dictSet v "_HEATCTRL_STATE" (PyVal.int st)
    .ok v, ha)

/-- The `name` property (lines 185-189) over the cached snapshot
(static_data; `Option.none` models the pre-refresh None of line 82).
`_ensure_static_data` (lines 145-148) raises RuntimeError when the cache
is absent.  Accessors are functions of the cached state alone — the
embedding gives them no transport input, as the source never fetches from
a property — and return the cache state after the call. -/
def name : Option Device → (Except PyErr String) × Option Device
  | Option.none => (.error .notInitialized, Option.none)
  | some d => (.ok d.NAME, some d)

/-- The `id` property (lines 191-195). -/
def id : Option Device → (Except PyErr String) × Option Device
  | Option.none => (.error .notInitialized, Option.none)
  | some d => (.ok d.ID, some d)

/-- The `cooling` property (lines 244-248): `int(...COOLING) == 1`. -/
def cooling : Option Device → (Except PyErr Bool) × Option Device
  | Option.none => (.error .notInitialized, Option.none)
  | some d =>
    ((pyIntVal d.COOLING).map fun n => n == 1, some d)

/-- The `io_devices` generator (lines 197-208), materialised: the typed
views in order (the first error, if any, aborts the sequence as the raised
exception would), and the cache state after a full traversal. -/
def io_devices : Option Device →
    (Except PyErr (List PyDict)) × Option Device
  | Option.none => (.error .notInitialized, Option.none)
  | some d =>
    (d.IODEVICE.mapM fun r => (ioDeviceView d r).1,
     some { d with IODEVICE := d.IODEVICE.map fun r => (ioDeviceView d r).2 })

/-- The `heat_controls` generator (lines 210-221), materialised. -/
def heat_controls : Option Device →
    (Except PyErr (List PyDict)) × Option Device
  | Option.none => (.error .notInitialized, Option.none)
  | some d =>
    (d.HEATCTRL.mapM fun r => (heatControlView d r).1,
     some { d with HEATCTRL := d.HEATCTRL.map fun r => (heatControlView d r).2 })

/-- The `heat_areas` generator (lines 223-242), materialised. -/
def heat_areas : Option Device →
    (Except PyErr (List PyDict)) × Option Device
  | Option.none => (.error .notInitialized, Option.none)
  | some d =>
    (d.HEATAREA.mapM fun r => (heatAreaView d r).1,
     some { d with HEATAREA := d.HEATAREA.map fun r => (heatAreaView d r).2 })

/-- Outcome of one HTTP attempt (request, status check, body decode), as
seen by the try bodies of lines 130-135 and 153-158: a 2xx response with a
decoded body, an HTTP error status (`response.raise_for_status()` raises
aiohttp.ClientResponseError, a subclass of aiohttp.ClientError), a
transport-level failure (aiohttp.ClientError, including the session
timeout), or a body-decoding failure (UnicodeDecodeError). -/
inductive Attempt
  | ok (body : String)
  | httpStatus (code : Nat)
  | netError
  | decodeError
deriving DecidableEq, Repr

/-- The exception an attempt raises, when it is not a success. -/
def errOfAttempt : Attempt → PyErr
  | .ok _ => .clientError
  | .httpStatus _ => .clientError
  | .netError => .clientError
  | .decodeError => .unicodeError

/-- Is the attempt a 2xx success. -/
def attemptOk : Attempt → Bool
  | .ok _ => true
  | _ => false

/-- The shared retry loop of `_send_command` (lines 128-138) and
`_fetch_static_data` (lines 151-161): `for trynum in (1, 2)`, where the
except clause catches (UnicodeDecodeError, aiohttp.ClientError) and
re-raises only on the second try.  `attempts k` is the outcome of the
k-th HTTP attempt. -/
def requestWithRetry (attempts : Nat → Attempt) : Except PyErr String :=
  match attempts 0 with
  | .ok body => .ok body
  | _ =>
    match attempts 1 with
    | .ok body => .ok body
    | a => .error (errOfAttempt a)

/-- The command envelope `_send_command` posts (lines 122-127). -/
def buildEnvelope (device_id command : String) : String :=
  "<?xml version=\"1.0\" encoding=\"UTF-8\"?>\n" ++
    "<Devices><Device>" ++
    "<ID>" ++ device_id ++ "</ID>" ++ command ++
    "</Device></Devices>"

/-- Python `s.split(":")` on a character list (no maxsplit, separators not
collapsed). -/
def splitOnColonAux : List Char → List Char → List (List Char)
  | [], acc => [acc.reverse]
  | c :: rest, acc =>
    if c = ':' then acc.reverse :: splitOnColonAux rest []
    else splitOnColonAux rest (c :: acc)

/-- What one `update_heat_area` call posts: the target device id, the
HEATAREA command fragment, and the full envelope. -/
structure PostedCmd where
  deviceId : String
  fragment : String
  envelope : String
deriving DecidableEq, Repr

/-- The id resolution of `update_heat_area` (lines 273-280): an id string
containing ":" is split into device id and zone number (the 2-variable
unpacking raises ValueError unless the split has exactly two parts); a
bare id uses `self.id` — which raises RuntimeError when no snapshot was
ever fetched — and the id string itself as zone number. -/
def resolveHeatAreaId (st : Option Device) (sid : String) :
    Except PyErr (String × String) :=
  if sid.data.contains ':' then
    match (splitOnColonAux sid.data []).map (fun l => String.mk l) with
    | [a, b] => Except.ok (a, b)
    | _ => Except.error PyErr.valueError
  else
    match st with
    | Option.none => Except.error PyErr.notInitialized
    | some d => Except.ok (d.ID, sid)

/-- `update_heat_area` (lines 271-287): `heat_area_id = str(...)` is
resolved by `resolveHeatAreaId`; the attributes are wire-coerced and
rendered in insertion order into the HEATAREA fragment, which is posted
to the resolved device id under the update lock.  The result records what
is posted; transport outcomes are covered by `requestWithRetry`. -/
def update_heat_area (st : Option Device) (heat_area_id : PyVal)
    (attributes : PyDict) : Except PyErr PostedCmd := do
  let parts ← resolveHeatAreaId st (pyStr heat_area_id)
  let cattrs ← convert_types_for_xml "HEATAREA" attributes
  let frag :=
    "<HEATAREA nr=\"" ++ parts.2 ++ "\">" ++
      (cattrs.foldl
        (fun s p => s ++ "<" ++ p.1 ++ ">" ++ pyStr p.2 ++ "</" ++ p.1 ++ ">")
        "") ++
      "</HEATAREA>"
  .ok ⟨parts.1, frag, buildEnvelope parts.1 frag⟩

/-- Observable steps of a `set_cooling` call, in order: the optimistic
cache write of line 254, acquiring/releasing the update lock (line 256),
the command post of line 257, one poll iteration (lines 260-262, at
elapsed time t with the result of the match check of line 262), and the
cache replacement of line 263. -/
inductive Ev
  | cacheWrite (v : Int)
  | acquire
  | post (deviceId : String) (body : String)
  | poll (t : Nat) (matched : Bool)
  | cacheReplace
  | release
deriving DecidableEq, Repr

/-- Environment of one `set_cooling` call: `fetches k` is the parsed
snapshot the (k+1)-th `_get_static_data` of line 261 returns, and
`extra k` the time that iteration takes beyond the 2-unit poll interval
(fetch duration and sleep overshoot).  Posts are taken as succeeding;
transport failures propagate per `requestWithRetry` and are outside this
trace model. -/
structure PollEnv where
  fetches : Nat → Device
  extra : Nat → Nat

/-- The poll loop of `set_cooling` (lines 258-269) with the source's
constants `_command_poll_interval = 2` and `_command_timeout = 10`: sleep
one interval, fetch, install the fresh snapshot and stop when its COOLING
equals the requested value, otherwise raise TimeoutError once the elapsed
time since the start of polling exceeds the timeout.  Result: the fresh
snapshot on success or the raised error, with the poll events.

The loop is written with a structural `fuel` so that it evaluates by
kernel reduction.  An iteration is entered only with `elapsed ≤ 10` and
adds at least 2 to `elapsed`, so a call with `2 * fuel + elapsed ≥ 12`
never reaches the fuel-0 case; `setCooling` below starts it at fuel 6,
elapsed 0, and `setCoolingLoop_fuel_stable` proves the fuel choice
irrelevant from there. -/
def setCoolingLoop (env : PollEnv) (value : Int) :
    Nat → Nat → Nat → (Except PyErr Device) × List Ev
  | 0, _, _ => (.error .commandTimeout, [])
  | fuel + 1, k, elapsed =>
    let t := elapsed + 2 + env.extra k
    let data := env.fetches k
    match pyIntVal data.COOLING with
    | .error e => (.error e, [])
    | .ok n =>
      if n = value then (.ok data, [.poll t true, .cacheReplace])
      else if t > 10 then (.error .commandTimeout, [.poll t false])
      else
        let r := setCoolingLoop env value fuel (k + 1) t
        (r.1, .poll t false :: r.2)

/-- Result of a `set_cooling` call: its outcome, the final cached
snapshot, and the event trace. -/
structure CoolResult where
  outcome : Except PyErr Unit
  cache : Option Device
  events : List Ev
deriving DecidableEq, Repr

/-- `set_cooling` (lines 250-269): convert the bool to 0/1; write it into
the cached snapshot (line 254 — before the lock of line 256, raising
TypeError when no snapshot was ever fetched); then, under the lock, post
the COOLING command addressed to `self.id` and run the poll loop.  On
success the fetched snapshot replaces the cache; on timeout the cache is
left with the optimistic write.  The `async with` releases the lock on
every exit path. -/
def set_cooling (st : Option Device) (v : Bool) (env : PollEnv) : CoolResult :=
  let value : Int := if v then 1 else 0
  match st with
  | Option.none => { outcome := .error .typeError, cache := Option.none, events := [] }
  | some d =>
    let d0 := { d with COOLING := PyVal.int value }
    let cmd := "<COOLING>" ++ toString value ++ "</COOLING>"
    let r := setCoolingLoop env value 6 0 0
    let pre := [Ev.cacheWrite value, Ev.acquire, Ev.post d0.ID cmd]
    match r.1 with
    | .ok dNew =>
      { outcome := .ok (), cache := some dNew,
        events := pre ++ r.2 ++ [Ev.release] }
    | .error e =>
      { outcome := .error e, cache := some d0,
        events := pre ++ r.2 ++ [Ev.release] }

/-- Composition checked by the round-trip property: wire record through
`convert_types_from_xml` then back through `convert_types_for_xml`. -/
def roundTripWire (k : String) (d : PyDict) : Except PyErr PyDict :=
  (convert_types_from_xml k d).bind (convert_types_for_xml k)

/-- Is the event the optimistic cache write. -/
def evIsWrite : Ev → Bool
  | .cacheWrite _ => true
  | _ => false

/-- Is the event the command post. -/
def evIsPost : Ev → Bool
  | .post _ _ => true
  | _ => false

/-- Is the event the lock acquisition. -/
def evIsAcquire : Ev → Bool
  | .acquire => true
  | _ => false

/-- The step ordering claimed for `set_cooling`: the command post precedes
the optimistic cache write, and the write happens while the gate is held
(i.e. after the acquire). -/
def claimedC1Order (es : List Ev) : Prop :=
  es.findIdx evIsPost < es.findIdx evIsWrite ∧
  es.findIdx evIsAcquire < es.findIdx evIsWrite

instance (es : List Ev) : Decidable (claimedC1Order es) := by
  unfold claimedC1Order; infer_instance

/-- Did some poll whose elapsed time is within `dl` observe a match. -/
def matchedWithin (dl : Nat) (es : List Ev) : Bool :=
  es.any fun e =>
    match e with
    | .poll t m => m && decide (t ≤ dl)
    | _ => false

/-- A raw heat-control record whose INUSE wire value is the literal "0"
(not in use per the `_TYPES` table), referencing zone 1 with state 5. -/
def inuseZeroCtrl : PyDict :=
  [("INUSE", PyVal.str "0"), ("HEATAREA_NR", PyVal.str "1"),
   ("HEATCTRL_STATE", PyVal.str "5")]

/-- A snapshot with one heat zone (ordinal 1) and `inuseZeroCtrl` as its
only heat control. -/
def bugDevice : Device :=
  ⟨"N", "EZR012345", PyVal.str "0", [[("@nr", PyVal.str "1")]],
   [inuseZeroCtrl], []⟩

/-- A snapshot whose raw COOLING value is the given wire string. -/
def coolDev (s : String) : Device :=
  ⟨"N", "EZR012345", PyVal.str s, [], [], []⟩

/-- An initialized facade state before any `set_cooling`. -/
def cexDevice : Device := coolDev "0"

/-- Poll environment whose first fetch already reflects cooling on. -/
def cexEnvMatch : PollEnv := ⟨fun _ => coolDev "1", fun _ => 0⟩

/-- Poll environment in which no fetch ever reflects cooling on. -/
def cexEnvNever : PollEnv := ⟨fun _ => coolDev "0", fun _ => 0⟩

/-- Poll environment in which cooling first reads back as on at the sixth
fetch, i.e. at elapsed time 12, after the 10-unit deadline. -/
def cexEnvLate : PollEnv :=
  ⟨fun k => if k < 5 then coolDev "0" else coolDev "1", fun _ => 0⟩

/-- Attempt sequence whose first attempt is an HTTP 500 and whose second
attempt succeeds. -/
def cexAttempts : Nat → Attempt :=
  fun k => if k = 0 then Attempt.httpStatus 500 else Attempt.ok "OK"

/-- Attempt sequence whose first attempt is a network failure and whose
second attempt succeeds. -/
def wAttempts : Nat → Attempt :=
  fun k => if k = 0 then Attempt.netError else Attempt.ok "BODY"

/-- Any two fuels large enough for the remaining time budget give the poll
loop the same result, so the fuel-6 start in `set_cooling` realises the
source's unbounded `while True` exactly: an iteration is entered only with
`elapsed ≤ 10` and adds at least 2 time units. -/
theorem setCoolingLoop_fuel_stable (env : PollEnv) (value : Int) :
    ∀ fuel elapsed, elapsed ≤ 10 → 12 ≤ 2 * fuel + elapsed → ∀ k,
      setCoolingLoop env value fuel k elapsed =
        setCoolingLoop env value (fuel + 1) k elapsed := by
  intro fuel
  induction fuel with
  | zero => intro elapsed h1 h2 k; omega
  | succ f ih =>
    intro elapsed h1 h2 k
    rw [setCoolingLoop, setCoolingLoop]
    cases hc : pyIntVal (env.fetches k).COOLING with
    | error e => rfl
    | ok n =>
      by_cases hn : n = value
      · simp [hn]
      · by_cases ht : elapsed + 2 + env.extra k > 10
        · simp [hn, ht]
        · simp [hn, ht, ih (elapsed + 2 + env.extra k) (by omega) (by omega)]

/-- When no fetched snapshot ever matches the requested value, the poll
loop ends in TimeoutError whatever the fuel. -/
theorem setCoolingLoop_never_match (env : PollEnv) (value : Int)
    (h : ∀ k, ∃ m, pyIntVal (env.fetches k).COOLING = .ok m ∧ m ≠ value) :
    ∀ fuel k elapsed,
      (setCoolingLoop env value fuel k elapsed).1 = .error .commandTimeout := by
  intro fuel
  induction fuel with
  | zero => intro k elapsed; rfl
  | succ f ih =>
    intro k elapsed
    obtain ⟨m, hm, hne⟩ := h k
    simp only [setCoolingLoop, hm]
    by_cases ht : elapsed + 2 + env.extra k > 10
    · simp [hne, ht]
    · simp [hne, ht, ih]

/-- Every event the poll loop emits is a poll or the cache replacement. -/
theorem setCoolingLoop_events (env : PollEnv) (value : Int) :
    ∀ fuel k elapsed, ∀ e ∈ (setCoolingLoop env value fuel k elapsed).2,
      (∃ t m, e = Ev.poll t m) ∨ e = Ev.cacheReplace := by
  intro fuel
  induction fuel with
  | zero => intro k elapsed e he; simp [setCoolingLoop] at he
  | succ f ih =>
    intro k elapsed e he
    simp only [setCoolingLoop] at he
    cases hc : pyIntVal (env.fetches k).COOLING with
    | error _ => rw [hc] at he; simp at he
    | ok n =>
      rw [hc] at he
      by_cases hn : n = value
      · simp [hn] at he
        rcases he with he | he
        · exact Or.inl ⟨_, _, he⟩
        · exact Or.inr he
      · by_cases ht : elapsed + 2 + env.extra k > 10
        · simp [hn, ht] at he
          exact Or.inl ⟨_, _, he⟩
        · simp [hn, ht] at he
          rcases he with he | he
          · exact Or.inl ⟨_, _, he⟩
          · exact ih (k + 1) (elapsed + 2 + env.extra k) e he

/-- C6: on a facade on which `refresh` (update_data) has never succeeded,
all six read accessors fail with the NotInitializedError (RuntimeError of
line 148) and leave the cache absent.  The accessors are functions of the
cached state alone — the embedding gives them no transport input, matching
the source, in which no property performs a fetch — so no snapshot is
auto-fetched. -/
theorem accessors_fail_before_first_refresh :
    name Option.none = (.error .notInitialized, Option.none) ∧
    id Option.none = (.error .notInitialized, Option.none) ∧
    cooling Option.none = (.error .notInitialized, Option.none) ∧
    heat_areas Option.none = (.error .notInitialized, Option.none) ∧
    heat_controls Option.none = (.error .notInitialized, Option.none) ∧
    io_devices Option.none = (.error .notInitialized, Option.none) :=
  ⟨rfl, rfl, rfl, rfl, rfl, rfl⟩

/-- C3: the aggregation loop of `heat_areas` tests Python truthiness of
the RAW wire string INUSE, so the not-in-use literal "0" (which the
`_TYPES` table and `convert_types_from_xml` parse as False, as asserted by
the repository's own tests) counts as in use: on a zone referenced only by
a control with INUSE "0" and state 5, the code yields aggregated state 5
where the claimed in-use scan (`zoneAggSpec`) yields 0, as seen through
the `heat_areas` accessor as well. -/
theorem heat_area_aggregation_counts_not_in_use_control :
    heatCtrlScan 1 bugDevice.HEATCTRL 0 = .ok 5 ∧
    zoneAggSpec 1 bugDevice.HEATCTRL = .ok 0 ∧
    (match (heat_areas (some bugDevice)).1 with
     | .ok [v] => v.lookup "_HEATCTRL_STATE"
     | _ => Option.none) = some (PyVal.int 5) := by
  decide

/-- C4 (amended): the shared retry loop returns the first attempt's body
on success; otherwise — for EVERY failure kind, a transport-level error, a
decoding failure, or a non-2xx HTTP status (whose
`response.raise_for_status()` raises aiohttp.ClientResponseError, a
subclass of the caught aiohttp.ClientError) — it retries exactly once,
returning the second attempt's body on success and propagating the second
attempt's error otherwise; no third attempt is ever consulted. -/
theorem request_retry_semantics (f : Nat → Attempt) :
    (∀ b, f 0 = .ok b → requestWithRetry f = .ok b) ∧
    (attemptOk (f 0) = false → ∀ b, f 1 = .ok b → requestWithRetry f = .ok b) ∧
    (attemptOk (f 0) = false → attemptOk (f 1) = false →
      requestWithRetry f = .error (errOfAttempt (f 1))) ∧
    (∀ g : Nat → Attempt, f 0 = g 0 → f 1 = g 1 →
      requestWithRetry f = requestWithRetry g) := by
  refine ⟨?_, ?_, ?_, ?_⟩
  · intro b hb; simp [requestWithRetry, hb]
  · intro h0 b hb
    cases hf0 : f 0 with
    | ok c => rw [hf0] at h0; simp [attemptOk] at h0
    | httpStatus code => simp [requestWithRetry, hf0, hb]
    | netError => simp [requestWithRetry, hf0, hb]
    | decodeError => simp [requestWithRetry, hf0, hb]
  · intro h0 h1
    cases hf0 : f 0 with
    | ok c => rw [hf0] at h0; simp [attemptOk] at h0
    | httpStatus code =>
      cases hf1 : f 1 with
      | ok c => rw [hf1] at h1; simp [attemptOk] at h1
      | httpStatus c2 => simp [requestWithRetry, hf0, hf1]
      | netError => simp [requestWithRetry, hf0, hf1]
      | decodeError => simp [requestWithRetry, hf0, hf1]
    | netError =>
      cases hf1 : f 1 with
      | ok c => rw [hf1] at h1; simp [attemptOk] at h1
      | httpStatus c2 => simp [requestWithRetry, hf0, hf1]
      | netError => simp [requestWithRetry, hf0, hf1]
      | decodeError => simp [requestWithRetry, hf0, hf1]
    | decodeError =>
      cases hf1 : f 1 with
      | ok c => rw [hf1] at h1; simp [attemptOk] at h1
      | httpStatus c2 => simp [requestWithRetry, hf0, hf1]
      | netError => simp [requestWithRetry, hf0, hf1]
      | decodeError => simp [requestWithRetry, hf0, hf1]
  · intro g h0 h1
    simp [requestWithRetry, h0, h1]

/-- Witness for `request_retry_semantics`: a first-attempt network failure
followed by a successful second attempt returns the second body. -/
theorem request_retry_semantics_witness :
    attemptOk (wAttempts 0) = false ∧ requestWithRetry wAttempts = .ok "BODY" :=
  ⟨rfl, (request_retry_semantics wAttempts).2.1 rfl "BODY" rfl⟩

/-- C4 (counterexample): a first attempt answered with HTTP 500 — a
non-2xx status — does not fail the call: the retry succeeds and the call
returns the second attempt's body, contradicting "a non-2xx status fails
the call immediately ... and is never retried". -/
theorem non2xx_retried_counterexample :
    cexAttempts 0 = Attempt.httpStatus 500 ∧
    requestWithRetry cexAttempts = .ok "OK" := by
  decide

/-- C5 (amended): for a bool-typed attribute, `convert_types_from_xml`
computes Python `bool(int(v))`: any wire literal parsing as an integer
maps to the truth value of "non-zero" — so "1" and 1 map to true, "0" to
false, but so does e.g. "2" map to true — and a literal that does not
parse as an integer raises ValueError rather than mapping to false. -/
theorem bool_from_wire_via_int (k a : String) (v : PyVal)
    (h : attrType k a = some PyType.bool) :
    convert_types_from_xml k [(a, v)] =
      (pyIntVal v).map fun n => [(a, PyVal.bool (n != 0))] := by
  unfold attrType at h
  cases hT : TYPES k with
  | none => rw [hT] at h; simp at h
  | some tbl =>
    rw [hT] at h
    simp at h
    unfold convert_types_from_xml
    rw [hT]
    simp only [List.mapM_cons, List.mapM_nil, h]
    cases pyIntVal v <;> simp [Except.map]

/-- Witness for `bool_from_wire_via_int` at INUSE with wire value "0". -/
theorem bool_from_wire_via_int_witness :
    attrType "HEATCTRL" "INUSE" = some PyType.bool ∧
    convert_types_from_xml "HEATCTRL" [("INUSE", PyVal.str "0")] =
      (pyIntVal (PyVal.str "0")).map fun n => [("INUSE", PyVal.bool (n != 0))] :=
  ⟨by decide, bool_from_wire_via_int "HEATCTRL" "INUSE" (PyVal.str "0") (by decide)⟩

/-- C5 (counterexample): the wire literal "2" parses to true, not false,
and the non-numeric literal "x" raises ValueError, refuting both "any
other value maps to false" and "never raises on an unexpected literal". -/
theorem bool_from_wire_claim_counterexample :
    convert_types_from_xml "HEATCTRL" [("INUSE", PyVal.str "2")] =
      .ok [("INUSE", PyVal.bool true)] ∧
    convert_types_from_xml "HEATCTRL" [("INUSE", PyVal.str "x")] =
      .error PyErr.valueError := by
  decide

/-- The event trace of an initialized `set_cooling` call: optimistic
cache write, then lock acquire, then the post, then the poll-loop events,
then the release. -/
theorem set_cooling_events_eq (d : Device) (v : Bool) (env : PollEnv) :
    (set_cooling (some d) v env).events =
      Ev.cacheWrite (if v then 1 else 0) :: Ev.acquire ::
        Ev.post d.ID
          ("<COOLING>" ++ toString (if v then (1 : Int) else 0) ++ "</COOLING>") ::
        ((setCoolingLoop env (if v then 1 else 0) 6 0 0).2 ++ [Ev.release]) := by
  unfold set_cooling
  cases hr : (setCoolingLoop env (if v then 1 else 0) 6 0 0).1 with
  | ok dNew => simp [hr]
  | error e => simp [hr]

/-- C1 (amended): `set_cooling` performs the optimistic cache write FIRST
(line 254), before acquiring the mutual-exclusion gate and before the
command post; then, holding the gate, it posts the cooling command
addressed to the base's id and polls, installing the confirming snapshot
on success; the gate is released last, so the send-then-poll sequence —
but not the optimistic write — runs entirely under the gate. -/
theorem set_cooling_write_first_then_gated_send_poll
    (d : Device) (v : Bool) (env : PollEnv) :
    (set_cooling (some d) v env).events.head? =
        some (Ev.cacheWrite (if v then 1 else 0)) ∧
    (set_cooling (some d) v env).events.get? 1 = some Ev.acquire ∧
    (set_cooling (some d) v env).events.get? 2 =
        some (Ev.post d.ID
          ("<COOLING>" ++ toString (if v then (1 : Int) else 0) ++ "</COOLING>")) ∧
    (set_cooling (some d) v env).events.getLast? = some Ev.release ∧
    (∀ e ∈ (set_cooling (some d) v env).events.drop 3,
        (∃ t m, e = Ev.poll t m) ∨ e = Ev.cacheReplace ∨ e = Ev.release) := by
  rw [set_cooling_events_eq]
  refine ⟨rfl, rfl, rfl, ?_, ?_⟩
  · rw [show Ev.cacheWrite (if v then 1 else 0) :: Ev.acquire ::
        Ev.post d.ID
          ("<COOLING>" ++ toString (if v then (1 : Int) else 0) ++ "</COOLING>") ::
        ((setCoolingLoop env (if v then 1 else 0) 6 0 0).2 ++ [Ev.release]) =
        (Ev.cacheWrite (if v then 1 else 0) :: Ev.acquire ::
          Ev.post d.ID
            ("<COOLING>" ++ toString (if v then (1 : Int) else 0) ++ "</COOLING>") ::
          (setCoolingLoop env (if v then 1 else 0) 6 0 0).2) ++ [Ev.release]
      by simp]
    exact List.getLast?_concat _
  · intro e he
    simp only [List.drop] at he
    rcases List.mem_append.1 he with h1 | h2
    · rcases setCoolingLoop_events env (if v then 1 else 0) 6 0 0 e h1 with h | h
      · exact Or.inl h
      · exact Or.inr (Or.inl h)
    · simp at h2
      exact Or.inr (Or.inr h2)

/-- Witness for `set_cooling_write_first_then_gated_send_poll` at a
concrete run. -/
theorem set_cooling_write_first_then_gated_send_poll_witness :
    (set_cooling (some cexDevice) false cexEnvNever).events.head? =
        some (Ev.cacheWrite (if false then 1 else 0)) ∧
    (set_cooling (some cexDevice) false cexEnvNever).events.get? 1 =
        some Ev.acquire ∧
    (set_cooling (some cexDevice) false cexEnvNever).events.get? 2 =
        some (Ev.post cexDevice.ID
          ("<COOLING>" ++ toString (if false then (1 : Int) else 0) ++
            "</COOLING>")) ∧
    (set_cooling (some cexDevice) false cexEnvNever).events.getLast? =
        some Ev.release ∧
    (∀ e ∈ (set_cooling (some cexDevice) false cexEnvNever).events.drop 3,
        (∃ t m, e = Ev.poll t m) ∨ e = Ev.cacheReplace ∨ e = Ev.release) :=
  set_cooling_write_first_then_gated_send_poll cexDevice false cexEnvNever

/-- C1 (counterexample): on a concrete initialized facade with an
immediately confirming appliance, the trace of `set_cooling(true)` begins
with the optimistic cache write, which precedes both the lock acquisition
and the command post — so the claimed ordering (post before the write,
write under the gate) is false. -/
theorem set_cooling_claimed_order_counterexample :
    ¬ claimedC1Order (set_cooling (some cexDevice) true cexEnvMatch).events := by
  decide

/-- C2 (amended): when no fetched snapshot ever reports the requested
cooling value, `set_cooling` fails with the TimeoutError of line 267
(CommandTimeoutError), and the cached snapshot is left as the pre-command
snapshot with the optimistic write applied — polled snapshots are never
installed on the failure path — so `cooling` keeps returning the
requested value until the next successful refresh. -/
theorem set_cooling_timeout_keeps_optimistic_write
    (d : Device) (v : Bool) (env : PollEnv)
    (h : ∀ k, ∃ m, pyIntVal (env.fetches k).COOLING = .ok m ∧
          m ≠ (if v then 1 else 0)) :
    (set_cooling (some d) v env).outcome = .error PyErr.commandTimeout ∧
    (set_cooling (some d) v env).cache =
      some { d with COOLING := PyVal.int (if v then 1 else 0) } ∧
    (cooling (set_cooling (some d) v env).cache).1 = .ok v := by
  have hl := setCoolingLoop_never_match env (if v then 1 else 0) h 6 0 0
  unfold set_cooling
  cases hr : (setCoolingLoop env (if v then 1 else 0) 6 0 0).1 with
  | ok dNew => rw [hr] at hl; exact absurd hl (by simp)
  | error e =>
    rw [hr] at hl
    injection hl with he
    subst he
    refine ⟨by simp [hr], by simp [hr], ?_⟩
    simp only [hr]
    cases v <;> simp [cooling, pyIntVal, Except.map]

/-- Witness for `set_cooling_timeout_keeps_optimistic_write`: an appliance
that always reports cooling off while cooling-on is requested. -/
theorem set_cooling_timeout_witness :
    (∀ k, ∃ m, pyIntVal (cexEnvNever.fetches k).COOLING = .ok m ∧
        m ≠ (if true then 1 else 0)) ∧
    (set_cooling (some cexDevice) true cexEnvNever).outcome =
        .error PyErr.commandTimeout ∧
    (set_cooling (some cexDevice) true cexEnvNever).cache =
      some { cexDevice with COOLING := PyVal.int (if true then 1 else 0) } ∧
    (cooling (set_cooling (some cexDevice) true cexEnvNever).cache).1 =
        .ok true :=
  have hk : ∀ k, ∃ m, pyIntVal (cexEnvNever.fetches k).COOLING = .ok m ∧
      m ≠ (if true then 1 else 0) := fun _ => ⟨0, rfl, by decide⟩
  ⟨hk, set_cooling_timeout_keeps_optimistic_write cexDevice true cexEnvNever hk⟩

/-- C2 (counterexample): with an appliance that first reflects the change
at elapsed time 12 — after the 10-unit deadline — no poll within the
deadline observes a match, yet the call succeeds instead of failing with
CommandTimeoutError: the loop checks the deadline only after an
unsuccessful poll, so the first poll completing past the deadline can
still confirm. -/
theorem set_cooling_deadline_counterexample :
    matchedWithin 10 (set_cooling (some cexDevice) true cexEnvLate).events = false ∧
    (set_cooling (some cexDevice) true cexEnvLate).outcome = .ok () := by
  decide

/-- C9: no read accessor mutates the cached snapshot: each accessor's
post-call cache state equals its pre-call state, because
`convert_types_from_xml` copies each entity record before converting
(line 91) and the NR/ID/derived-field edits of the generators are applied
to that copy only, while the aggregation loop of `heat_areas` merely reads
the raw heat controls.  The snapshot therefore stays wire-native across
any sequence of reads. -/
theorem read_accessors_leave_snapshot_unchanged (d : Device) :
    (name (some d)).2 = some d ∧
    (id (some d)).2 = some d ∧
    (cooling (some d)).2 = some d ∧
    (heat_areas (some d)).2 = some d ∧
    (heat_controls (some d)).2 = some d ∧
    (io_devices (some d)).2 = some d := by
  refine ⟨rfl, rfl, rfl, ?_, ?_, ?_⟩ <;>
    simp [heat_areas, heat_controls, io_devices, heatAreaView, heatControlView,
      ioDeviceView]

/-- Witness for `read_accessors_leave_snapshot_unchanged` at a concrete
snapshot. -/
theorem read_accessors_leave_snapshot_unchanged_witness :
    (name (some bugDevice)).2 = some bugDevice ∧
    (id (some bugDevice)).2 = some bugDevice ∧
    (cooling (some bugDevice)).2 = some bugDevice ∧
    (heat_areas (some bugDevice)).2 = some bugDevice ∧
    (heat_controls (some bugDevice)).2 = some bugDevice ∧
    (io_devices (some bugDevice)).2 = some bugDevice :=
  read_accessors_leave_snapshot_unchanged bugDevice

/-- Splitting a colon-free character list yields the single piece. -/
theorem splitOnColonAux_no_colon (cs : List Char) :
    ∀ acc, ¬ (':' ∈ cs) → splitOnColonAux cs acc = [acc.reverse ++ cs] := by
  induction cs with
  | nil => intro acc h; simp [splitOnColonAux]
  | cons c rest ih =>
    intro acc h
    have hc : ¬ c = ':' := fun hEq => h (hEq ▸ List.mem_cons_self c rest)
    rw [splitOnColonAux, if_neg hc, ih (c :: acc)
      (fun hm => h (List.mem_cons_of_mem c hm))]
    simp

/-- Splitting a list with exactly one colon yields the two pieces. -/
theorem splitOnColonAux_single (b : List Char) (hb : ¬ (':' ∈ b)) :
    ∀ (a : List Char) (acc : List Char), ¬ (':' ∈ a) →
      splitOnColonAux (a ++ ':' :: b) acc = [acc.reverse ++ a, b] := by
  intro a
  induction a with
  | nil =>
    intro acc _
    rw [List.nil_append, splitOnColonAux, if_pos rfl,
      splitOnColonAux_no_colon b [] hb]
    simp
  | cons c rest ih =>
    intro acc ha
    have hc : ¬ c = ':' := fun hEq => ha (hEq ▸ List.mem_cons_self c rest)
    rw [List.cons_append, splitOnColonAux, if_neg hc, ih (c :: acc)
      (fun hm => ha (List.mem_cons_of_mem c hm))]
    simp

/-- Resolving a qualified id with colon-free parts splits it back into
exactly those parts, whatever the facade state. -/
theorem resolveHeatAreaId_qualified (st : Option Device) (a b : String)
    (ha : ¬ (':' ∈ a.data)) (hb : ¬ (':' ∈ b.data)) :
    resolveHeatAreaId st (a ++ ":" ++ b) = .ok (a, b) := by
  have hdata : (a ++ ":" ++ b).data = a.data ++ ':' :: b.data := by
    show a.data ++ [':'] ++ b.data = _
    simp
  have hq : (a ++ ":" ++ b).data.contains ':' = true := by
    rw [hdata]
    exact List.elem_eq_true_of_mem (by simp)
  unfold resolveHeatAreaId
  rw [hq, if_pos rfl, hdata, splitOnColonAux_single b.data hb a.data [] ha]
  rfl

/-- Resolving a colon-free bare id on an initialized facade pairs the
base's own id with the id string. -/
theorem resolveHeatAreaId_bare (d : Device) (sid : String)
    (h : ¬ (':' ∈ sid.data)) :
    resolveHeatAreaId (some d) sid = .ok (d.ID, sid) := by
  have hc : sid.data.contains ':' = false := by
    simpa [List.contains] using h
  unfold resolveHeatAreaId
  rw [hc]
  simp

/-- C7: on an initialized facade, `update_heat_area` posts literally the
same thing — the same device id, the same HEATAREA fragment, the same
envelope — whether the zone is addressed by the fully qualified id
"base-id:ordinal" or by the bare ordinal: the qualified path splits the
id back into the base id and the ordinal string, the bare path pairs
`self.id` with `str(ordinal)`, and the coerced attribute rendering is
shared. -/
theorem update_zone_qualified_equals_bare (d : Device) (n : Nat)
    (attrs : PyDict) (h1 : ¬ (':' ∈ d.ID.data))
    (h2 : ¬ (':' ∈ (toString n).data)) :
    update_heat_area (some d) (PyVal.str (d.ID ++ ":" ++ toString n)) attrs =
      update_heat_area (some d) (PyVal.int (n : Int)) attrs := by
  unfold update_heat_area
  rw [show pyStr (PyVal.str (d.ID ++ ":" ++ toString n)) =
        d.ID ++ ":" ++ toString n from rfl,
    show pyStr (PyVal.int (n : Int)) = toString n from rfl,
    resolveHeatAreaId_qualified (some d) d.ID (toString n) h1 h2,
    resolveHeatAreaId_bare d (toString n) h2]

/-- Witness for `update_zone_qualified_equals_bare` at zone 1 of base
"EZR012345" with a one-attribute update. -/
theorem update_zone_qualified_equals_bare_witness :
    ¬ (':' ∈ (coolDev "0").ID.data) ∧ ¬ (':' ∈ (toString 1).data) ∧
    update_heat_area (some (coolDev "0"))
        (PyVal.str ((coolDev "0").ID ++ ":" ++ toString 1))
        [("HEATAREA_MODE", PyVal.int 2)] =
      update_heat_area (some (coolDev "0")) (PyVal.int ((1 : Nat) : Int))
        [("HEATAREA_MODE", PyVal.int 2)] :=
  ⟨by decide, by decide,
    update_zone_qualified_equals_bare (coolDev "0") 1
      [("HEATAREA_MODE", PyVal.int 2)] (by decide) (by decide)⟩

/-- C10: a qualified zone id is taken at face value: the part before the
colon becomes the target device id of the posted envelope — whatever it
is, equal to this base's id or not, and whether or not the facade is even
initialized — while a bare ordinal posts to this base's own id. -/
theorem update_zone_device_id_verbatim :
    (∀ (st : Option Device) (devPart nrPart : String) (attrs : PyDict)
        (r : PostedCmd), ¬ (':' ∈ devPart.data) → ¬ (':' ∈ nrPart.data) →
        update_heat_area st (PyVal.str (devPart ++ ":" ++ nrPart)) attrs =
          .ok r →
        r.deviceId = devPart ∧ r.envelope = buildEnvelope devPart r.fragment) ∧
    (∀ (d : Device) (n : Int) (attrs : PyDict) (r : PostedCmd),
        ¬ (':' ∈ (toString n).data) →
        update_heat_area (some d) (PyVal.int n) attrs = .ok r →
        r.deviceId = d.ID) := by
  constructor
  · intro st devPart nrPart attrs r hd hn hok
    unfold update_heat_area at hok
    rw [show pyStr (PyVal.str (devPart ++ ":" ++ nrPart)) =
        devPart ++ ":" ++ nrPart from rfl,
      resolveHeatAreaId_qualified st devPart nrPart hd hn] at hok
    cases hc : convert_types_for_xml "HEATAREA" attrs with
    | error e => rw [hc] at hok; simp [Bind.bind, Except.bind] at hok
    | ok cattrs =>
      rw [hc] at hok
      simp [Bind.bind, Except.bind] at hok
      rw [← hok]
      exact ⟨rfl, rfl⟩
  · intro d n attrs r hn hok
    unfold update_heat_area at hok
    rw [show pyStr (PyVal.int n) = toString n from rfl,
      resolveHeatAreaId_bare d (toString n) hn] at hok
    cases hc : convert_types_for_xml "HEATAREA" attrs with
    | error e => rw [hc] at hok; simp [Bind.bind, Except.bind] at hok
    | ok cattrs =>
      rw [hc] at hok
      simp [Bind.bind, Except.bind] at hok
      rw [← hok]

/-- Witness for `update_zone_device_id_verbatim`: a qualified id naming a
FOREIGN base id "OTHER9" is posted to "OTHER9" even though the facade's
own id is "EZR012345", and a bare ordinal posts to "EZR012345". -/
theorem update_zone_device_id_verbatim_witness :
    (¬ (':' ∈ ("OTHER9" : String).data)) ∧ (¬ (':' ∈ ("2" : String).data)) ∧
    (¬ (':' ∈ (toString (2 : Int)).data)) ∧
    (∀ r : PostedCmd,
      update_heat_area (some (coolDev "0")) (PyVal.str ("OTHER9" ++ ":" ++ "2"))
          [] = .ok r →
      r.deviceId = "OTHER9" ∧ r.envelope = buildEnvelope "OTHER9" r.fragment) ∧
    (∀ r : PostedCmd,
      update_heat_area (some (coolDev "0")) (PyVal.int 2) [] = .ok r →
      r.deviceId = (coolDev "0").ID) :=
  ⟨by decide, by decide, by decide,
    fun r => update_zone_device_id_verbatim.1 (some (coolDev "0")) "OTHER9" "2"
      [] r (by decide) (by decide),
    fun r => update_zone_device_id_verbatim.2 (coolDev "0") 2 [] r (by decide)⟩

/-- A declared attribute type comes from a registered table. -/
theorem attrType_eq_some (k a : String) (t : PyType)
    (h : attrType k a = some t) :
    ∃ tbl, TYPES k = some tbl ∧ tbl.lookup a = some t := by
  unfold attrType at h
  cases hT : TYPES k with
  | none => rw [hT] at h; simp at h
  | some tbl => rw [hT] at h; simp at h; exact ⟨tbl, rfl, h⟩

/-- Conversion of a single-attribute record from wire form, by declared
type. -/
theorem convert_from_single (k a : String) (v : PyVal)
    (tbl : List (String × PyType)) (hT : TYPES k = some tbl) :
    convert_types_from_xml k [(a, v)] =
      (match tbl.lookup a with
       | some .bool => (pyIntVal v).map fun n => [(a, PyVal.bool (n != 0))]
       | some .int => (pyIntVal v).map fun n => [(a, PyVal.int n)]
       | some .float => (pyFloatVal v).map fun q => [(a, PyVal.float q)]
       | some .str => .ok [(a, PyVal.str (pyStr v))]
       | Option.none => .ok [(a, v)]) := by
  unfold convert_types_from_xml
  rw [hT]
  cases hL : tbl.lookup a with
  | none => simp [List.mapM, List.mapM.loop, hL]
  | some t =>
    cases t with
    | bool =>
      cases hv : pyIntVal v <;> simp [List.mapM, List.mapM.loop, hL, hv, Except.map]
    | int =>
      cases hv : pyIntVal v <;> simp [List.mapM, List.mapM.loop, hL, hv, Except.map]
    | float =>
      cases hv : pyFloatVal v <;> simp [List.mapM, List.mapM.loop, hL, hv, Except.map]
    | str => simp [List.mapM, List.mapM.loop, hL]

/-- Conversion of a single-attribute record to wire form, by declared
type. -/
theorem convert_for_single (k a : String) (v : PyVal)
    (tbl : List (String × PyType)) (hT : TYPES k = some tbl) :
    convert_types_for_xml k [(a, v)] =
      (match tbl.lookup a with
       | some .bool =>
         .ok [(a, PyVal.str (if pyTruthy v && !pyEqStrZero v then "1" else "0"))]
       | some .float => (pyFloatVal v).map fun q => [(a, PyVal.str (format01f q))]
       | _ => .ok [(a, PyVal.str (pyStr v))]) := by
  unfold convert_types_for_xml
  rw [hT]
  cases hL : tbl.lookup a with
  | none => simp [List.mapM, List.mapM.loop, hL]
  | some t =>
    cases t with
    | bool => simp [List.mapM, List.mapM.loop, hL]
    | int => simp [List.mapM, List.mapM.loop, hL]
    | float =>
      cases hv : pyFloatVal v <;> simp [List.mapM, List.mapM.loop, hL, hv, Except.map]
    | str => simp [List.mapM, List.mapM.loop, hL]

/-- C8: coercion round-trips.  For every registered entity kind and
attribute: a bool-typed attribute's wire values "0"/"1" come back
unchanged through `convert_types_from_xml` then `convert_types_for_xml`;
an int-typed attribute's canonical wire integer (one that parses to n and
is n's decimal rendering) comes back unchanged; a float-typed attribute
comes back as its value formatted to exactly one decimal place — hence
unchanged whenever the wire value already carries one decimal place. -/
theorem coercion_round_trip (k a v : String) :
    (attrType k a = some PyType.bool → (v = "0" ∨ v = "1") →
      roundTripWire k [(a, PyVal.str v)] = .ok [(a, PyVal.str v)]) ∧
    (attrType k a = some PyType.int → ∀ n : Int, pyIntOfString v = .ok n →
      toString n = v →
      roundTripWire k [(a, PyVal.str v)] = .ok [(a, PyVal.str v)]) ∧
    (attrType k a = some PyType.float → ∀ q : Rat, pyFloatOfString v = .ok q →
      roundTripWire k [(a, PyVal.str v)] = .ok [(a, PyVal.str (format01f q))]) := by
  refine ⟨?_, ?_, ?_⟩
  · intro h hv
    obtain ⟨tbl, hT, hL⟩ := attrType_eq_some k a PyType.bool h
    unfold roundTripWire
    rcases hv with rfl | rfl
    · rw [convert_from_single k a (PyVal.str "0") tbl hT]
      simp only [hL, pyIntVal,
        show pyIntOfString "0" = Except.ok (0 : Int) from rfl, Except.map,
        show ((0 : Int) != 0) = false from rfl, Except.bind]
      rw [convert_for_single k a (PyVal.bool false) tbl hT]
      simp [hL, pyTruthy, pyEqStrZero]
    · rw [convert_from_single k a (PyVal.str "1") tbl hT]
      simp only [hL, pyIntVal,
        show pyIntOfString "1" = Except.ok (1 : Int) from rfl, Except.map,
        show ((1 : Int) != 0) = true from rfl, Except.bind]
      rw [convert_for_single k a (PyVal.bool true) tbl hT]
      simp [hL, pyTruthy, pyEqStrZero]
  · intro h n hparse htostr
    obtain ⟨tbl, hT, hL⟩ := attrType_eq_some k a PyType.int h
    unfold roundTripWire
    rw [convert_from_single k a (PyVal.str v) tbl hT]
    simp only [hL, pyIntVal, hparse, Except.map, Except.bind]
    rw [convert_for_single k a (PyVal.int n) tbl hT]
    simp [hL, pyStr, htostr]
  · intro h q hparse
    obtain ⟨tbl, hT, hL⟩ := attrType_eq_some k a PyType.float h
    unfold roundTripWire
    rw [convert_from_single k a (PyVal.str v) tbl hT]
    simp only [hL, pyFloatVal, hparse, Except.map, Except.bind]
    rw [convert_for_single k a (PyVal.float q) tbl hT]
    simp [hL, pyFloatVal, Except.map]

unseal Rat.mul Rat.inv Rat.add Rat.sub in
/-- Witness for `coercion_round_trip`: BLOCK_HC "1" and HEATAREA_MODE "5"
round-trip exactly, T_ACTUAL "19.2" round-trips to its one-decimal
formatting. -/
theorem coercion_round_trip_witness :
    (attrType "HEATAREA" "BLOCK_HC" = some PyType.bool ∧
      roundTripWire "HEATAREA" [("BLOCK_HC", PyVal.str "1")] =
        .ok [("BLOCK_HC", PyVal.str "1")]) ∧
    (attrType "HEATAREA" "HEATAREA_MODE" = some PyType.int ∧
      roundTripWire "HEATAREA" [("HEATAREA_MODE", PyVal.str "5")] =
        .ok [("HEATAREA_MODE", PyVal.str "5")]) ∧
    (attrType "HEATAREA" "T_ACTUAL" = some PyType.float ∧
      roundTripWire "HEATAREA" [("T_ACTUAL", PyVal.str "19.2")] =
        .ok [("T_ACTUAL", PyVal.str (format01f (96 / 5)))]) :=
  ⟨⟨by decide,
    (coercion_round_trip "HEATAREA" "BLOCK_HC" "1").1 (by decide) (Or.inr rfl)⟩,
   ⟨by decide,
    (coercion_round_trip "HEATAREA" "HEATAREA_MODE" "5").2.1 (by decide) 5
      (by decide) (by decide)⟩,
   ⟨by decide,
    (coercion_round_trip "HEATAREA" "T_ACTUAL" "19.2").2.2 (by decide) (96 / 5)
      (by decide)⟩⟩

end Alpha2
